import Mathlib

/-!
Shallow embedding of the GateTalk live-translation app:
`src/app/lib/openai-translator.ts` (the transcribe → translate → synthesize
pipeline), `src/unnamed/part_000` (the `/api/translate` route handler), and
the orchestration/state logic of `src/app/page.tsx` (conversation log,
language routing, recording `onstop` handler, playback controller).

The external OpenAI collaborators (Whisper transcription, chat completion,
speech synthesis) are modelled as oracle functions supplied to the pipeline;
each pipeline run also yields the ordered trace of collaborator calls so that
stage sequencing is provable.  JavaScript values that may be `undefined` or
`null` at runtime are modelled as `Option String` (`none` = absent), and the
JS truthiness fallback `a || b` as `jsOr`.
-/

namespace GateTalk

/-- JavaScript `a || b` for string-or-absent values: `null`/`undefined` and
the empty string are falsy, so they select the fallback. -/
def jsOr (v : Option String) (d : String) : String :=
  match v with
  | some s => if s = "" then d else s
  | none => d

/-- An audio clip as the route sees it: raw bytes plus the `type` and `name`
attributes of the uploaded `File` (either may be empty). -/
structure AudioClip where
  bytes : List Nat
  mimeType : String
  name : String
deriving DecidableEq, Repr

/-- Result of the transcription collaborator (`openai-translator.ts`,
`transcribeAudio`): the recognized `text` and detected `language` fields of
the verbose-JSON Whisper response. -/
structure Transcription where
  text : String
  language : String
deriving DecidableEq, Repr

/-- The six OpenAI text-to-speech voices (`openai-translator.ts`,
`textToSpeech`). -/
inductive Voice where
  | alloy | echo | fable | onyx | nova | shimmer
deriving DecidableEq, Repr

/-- External collaborators of the pipeline, as black-box oracles.
`transcribe` models `openai.audio.transcriptions.create` (an `error` is a
rejected promise).  `chat` models `openai.chat.completions.create`, taking
the system prompt and the user text and returning
`completion.choices[0].message.content` (`none` = JSON `null`).  `speech`
models `openai.audio.speech.create`, taking the input text and the selected
voice and returning the synthesized bytes. -/
structure Oracles where
  transcribe : AudioClip → Except String Transcription
  chat : String → String → Except String (Option String)
  speech : String → Voice → Except String (List Nat)

/-- `transcribeAudio` from `openai-translator.ts` lines 7-18: submit the file
to the transcription collaborator and return its `text` and `language`. -/
def transcribeAudio (o : Oracles) (audioFile : AudioClip) : Except String Transcription :=
  o.transcribe audioFile

/-- The fixed system instruction of `translateText` (`openai-translator.ts`
lines 30-33), interpolating the source and target language codes. -/
def systemPrompt (sourceLang targetLang : String) : String :=
  "You are a professional translator for a logistics company. Translate the following text from "
    ++ sourceLang ++ " to " ++ targetLang
    ++ ". Keep it brief and literal. Use logistics terminology when appropriate. Only output the translation, nothing else."

/-- `translateText` from `openai-translator.ts` lines 20-44: ask the chat
collaborator for a translation and return
`completion.choices[0].message.content || text` — absent or empty content
falls back to the untranslated input. -/
def translateText (o : Oracles) (text sourceLang targetLang : String) : Except String String :=
  match o.chat (systemPrompt sourceLang targetLang) text with
  | .error e => .error e
  | .ok content => .ok (jsOr content text)

/-- The static language → voice table of `textToSpeech`
(`openai-translator.ts` lines 49-86), applied to the lower-cased language. -/
def voiceFor (language : String) : Voice :=
  match language.toLower with
  | "nl" | "dutch" => .nova
  | "en" | "english" => .echo
  | "fr" | "french" => .shimmer
  | "de" | "german" => .onyx
  | "es" | "spanish" => .shimmer
  | "it" | "italian" => .nova
  | "pl" | "polish" => .alloy
  | "ro" | "romanian" => .shimmer
  | _ => .alloy

/-- `textToSpeech` from `openai-translator.ts` lines 46-96: pick the voice
from the language and submit the text to the speech collaborator. -/
def textToSpeech (o : Oracles) (text language : String) : Except String (List Nat) :=
  o.speech text (voiceFor language)

/-- The structured success result of the pipeline (`openai-translator.ts`
lines 112-118). -/
structure TranslationResult where
  originalText : String
  originalLanguage : String
  translatedText : String
  targetLanguage : String
  audio : List Nat
deriving DecidableEq, Repr

/-- One collaborator invocation, recorded in order of occurrence. -/
inductive StageEvent where
  | recognizeCall (clip : AudioClip)
  | chatCall (system user : String)
  | speechCall (text : String) (voice : Voice)
deriving DecidableEq, Repr

/-- `translateAudio` from `openai-translator.ts` lines 99-119: the strictly
sequential three-stage pipeline (transcribe, then translate, then
text-to-speech; each `await` completes before the next call is issued).
A rejected collaborator promise propagates and aborts the remaining stages.
The second component is the ordered trace of collaborator calls made. -/
def translateAudio (o : Oracles) (audioFile : AudioClip) (targetLang : String) :
    Except String TranslationResult × List StageEvent :=
  match transcribeAudio o audioFile with
  | .error e => (.error e, [.recognizeCall audioFile])
  | .ok tr =>
    match translateText o tr.text tr.language targetLang with
    | .error e =>
      (.error e,
        [.recognizeCall audioFile, .chatCall (systemPrompt tr.language targetLang) tr.text])
    | .ok translatedText =>
      match textToSpeech o translatedText targetLang with
      | .error e =>
        (.error e,
          [.recognizeCall audioFile, .chatCall (systemPrompt tr.language targetLang) tr.text,
            .speechCall translatedText (voiceFor targetLang)])
      | .ok audioBuffer =>
        (.ok { originalText := tr.text, originalLanguage := tr.language,
               translatedText := translatedText, targetLanguage := targetLang,
               audio := audioBuffer },
          [.recognizeCall audioFile, .chatCall (systemPrompt tr.language targetLang) tr.text,
            .speechCall translatedText (voiceFor targetLang)])

/-- Standard base64 alphabet used when the route serializes the synthesized
audio (`Buffer.toString('base64')`). -/
def base64Digit (n : Nat) : Char :=
  "ABCDEFGHIJKLMNOPQRSTUVWXYZabcdefghijklmnopqrstuvwxyz0123456789+/".toList.getD n 'A'

/-- Base64 encoding of a byte list (bytes taken mod 256 positionally). -/
def base64Encode : List Nat → String
  | [] => ""
  | [b1] =>
    String.mk [base64Digit (b1 / 4 % 64), base64Digit (b1 % 4 * 16)] ++ "=="
  | [b1, b2] =>
    String.mk [base64Digit (b1 / 4 % 64), base64Digit (b1 % 4 * 16 + b2 / 16 % 16),
      base64Digit (b2 % 16 * 4)] ++ "="
  | b1 :: b2 :: b3 :: rest =>
    String.mk [base64Digit (b1 / 4 % 64), base64Digit (b1 % 4 * 16 + b2 / 16 % 16),
      base64Digit (b2 % 16 * 4 + b3 / 64 % 4), base64Digit (b3 % 64)] ++ base64Encode rest

/-- The JSON body the route returns (`src/unnamed/part_000`): on success the
five result fields are present; on failure only `error` (and `details`).
Absent fields read as `undefined` (`none`) on the client. -/
structure ApiResult where
  originalText : Option String := none
  originalLanguage : Option String := none
  translatedText : Option String := none
  targetLanguage : Option String := none
  audioBase64 : Option String := none
  error : Option String := none
  details : Option String := none
deriving DecidableEq, Repr

/-- An HTTP response of the route: status code plus JSON body. -/
structure PostResponse where
  status : Nat
  body : ApiResult
deriving DecidableEq, Repr

/-- The re-wrapping of the uploaded file in the route (`part_000` lines
20-24): bytes preserved, `type` and `name` defaulted when falsy. -/
def processFile (f : AudioClip) : AudioClip :=
  { bytes := f.bytes,
    mimeType := jsOr (some f.mimeType) "audio/webm",
    name := jsOr (some f.name) "recording.webm" }

/-- The `POST /api/translate` handler (`src/unnamed/part_000` lines 6-48):
400 if no audio part is present; otherwise run `translateAudio` with
`targetLang || 'en'`; on success answer 200 with the result fields and the
base64-serialized audio, and on any thrown pipeline error answer 500 with
`{error: 'Translation failed', details}`. -/
def POST (o : Oracles) (audio : Option AudioClip) (targetLang : Option String) : PostResponse :=
  match audio with
  | none => { status := 400, body := { error := some "No audio file provided" } }
  | some audioFile =>
    let tl := jsOr targetLang "en"
    match (translateAudio o (processFile audioFile) tl).1 with
    | .ok result =>
      { status := 200,
        body := { originalText := some result.originalText,
                  originalLanguage := some result.originalLanguage,
                  translatedText := some result.translatedText,
                  targetLanguage := some result.targetLanguage,
                  audioBase64 := some (base64Encode result.audio) } }
    | .error e =>
      { status := 500, body := { error := some "Translation failed", details := some e } }

/-- Speaker role of a conversation entry (`page.tsx` `Message.role`). -/
inductive Role where
  | driver | counter
deriving DecidableEq, Repr

/-- A conversation `Message` (`page.tsx` lines 8-15).  The TypeScript type
declares every field as `string`, but at runtime the fields copied from the
parsed response may hold `undefined`, so they are modelled as
`Option String`. -/
structure Message where
  id : String
  role : Role
  originalText : Option String
  originalLang : Option String
  translatedText : Option String
  audioBase64 : Option String
deriving DecidableEq, Repr

/-- Playback controller state (`page.tsx` lines 32, 41-42): the
`currentAudioSource` ref and `playingMessageId` React state, plus the set
`active` of audio sources that have been started and neither stopped nor
ended (instrumentation standing for actually audible playback), and a
counter supplying fresh source identities. -/
structure PlaybackState where
  currentSource : Option Nat
  playingMessageId : Option String
  active : List Nat
  nextSourceId : Nat
deriving DecidableEq, Repr

/-- The initial (idle) playback state. -/
def initPlayback : PlaybackState :=
  { currentSource := none, playingMessageId := none, active := [], nextSourceId := 0 }

/-- `stopCurrentAudio` (`page.tsx` lines 79-93): stop the current source if
any (stopping an already-stopped source is caught and ignored), drop both
refs, and clear `playingMessageId`. -/
def stopCurrentAudio (p : PlaybackState) : PlaybackState :=
  { currentSource := none, playingMessageId := none,
    active := match p.currentSource with
      | some s => p.active.erase s
      | none => p.active,
    nextSourceId := p.nextSourceId }

/-- `playAudio` (`page.tsx` lines 96-125): first stop whatever is playing,
then decode the audio; on decode success create and start a fresh source and
mark the message as playing; on decode failure (the `catch`) just clear the
playing id. -/
def playAudio (decodeOk : Bool) (messageId : String) (p : PlaybackState) : PlaybackState :=
  let p1 := stopCurrentAudio p
  if decodeOk then
    { currentSource := some p1.nextSourceId, playingMessageId := some messageId,
      active := p1.active ++ [p1.nextSourceId], nextSourceId := p1.nextSourceId + 1 }
  else
    { p1 with playingMessageId := none }

/-- Natural completion of source `s` (`source.onended`, `page.tsx` lines
114-118): only a source that is actually playing can end on its own; its
handler clears both refs and the playing id. -/
def sourceEnded (s : Nat) (p : PlaybackState) : PlaybackState :=
  if p.active.contains s then
    { currentSource := none, playingMessageId := none,
      active := p.active.erase s, nextSourceId := p.nextSourceId }
  else p

/-- `handleToggleAudio` (`page.tsx` lines 226-234): stop if this message is
the one playing, otherwise play it. -/
def handleToggleAudio (decodeOk : Bool) (messageId : String) (p : PlaybackState) : PlaybackState :=
  if p.playingMessageId = some messageId then stopCurrentAudio p
  else playAudio decodeOk messageId p

/-- One externally triggered playback controller operation: a per-turn
toggle, a teardown stop, or a natural completion of a source. -/
inductive PlayOp where
  | toggle (messageId : String) (decodeOk : Bool)
  | stopAll
  | complete (s : Nat)
deriving DecidableEq, Repr

/-- Apply one playback operation. -/
def playStep (p : PlaybackState) (op : PlayOp) : PlaybackState :=
  match op with
  | .toggle mid ok => handleToggleAudio ok mid p
  | .stopAll => stopCurrentAudio p
  | .complete s => sourceEnded s p

/-- Run a finite sequence of playback operations. -/
def runPlay (ops : List PlayOp) (p : PlaybackState) : PlaybackState :=
  ops.foldl playStep p

/-- Client component state (`page.tsx` lines 28-32): the detected driver
language cell (initially the empty string; may become `undefined` when an
error body is stored), the conversation log, and the playback state. -/
structure ClientState where
  detectedDriverLang : Option String
  conversation : List Message
  playback : PlaybackState
deriving DecidableEq, Repr

/-- The client state on mount. -/
def initClient : ClientState :=
  { detectedDriverLang := some "", conversation := [], playback := initPlayback }

/-- The `targetLang` sent with a recording (`page.tsx` line 165): `'nl'` for
the driver, `detectedDriverLang || 'nl'` for the counter. -/
def targetLangFor (isDriver : Bool) (detectedDriverLang : Option String) : String :=
  if isDriver then "nl" else jsOr detectedDriverLang "nl"

/-- The `Message` built in the driver branch of the `onstop` handler
(`page.tsx` lines 175-182): id is `Date.now().toString()`, and the text and
language fields are copied from the parsed response. -/
def driverMessage (result : ApiResult) (now : Nat) : Message :=
  { id := toString now, role := .driver,
    originalText := result.originalText,
    originalLang := result.originalLanguage,
    translatedText := result.translatedText,
    audioBase64 := result.audioBase64 }

/-- The `Message` built in the counter branch (`page.tsx` lines 187-194):
`originalLang` is the hard-coded `'nl'`; everything else as for the driver. -/
def counterMessage (result : ApiResult) (now : Nat) : Message :=
  { id := toString now, role := .counter,
    originalText := result.originalText,
    originalLang := some "nl",
    translatedText := result.translatedText,
    audioBase64 := result.audioBase64 }

/-- The fetch-and-update part of the recorder `onstop` handler (`page.tsx`
lines 167-204).  `outcome` is the result of
`await fetch(...).then(r => r.json())`: `.error` when the fetch or the JSON
parse threw (the `catch` only alerts, leaving the state unchanged), `.ok`
with the parsed body otherwise — note that the handler never checks
`response.ok`, so an HTTP error body flows into the same success path.  The
driver branch additionally stores `result.originalLanguage` in the detected
language cell.  Both branches append their message to the conversation and
start playback of its audio (`decodeOk` says whether the decode succeeds). -/
def onstopHandler (isDriver : Bool) (outcome : Except Unit ApiResult) (now : Nat)
    (decodeOk : Bool) (st : ClientState) : ClientState :=
  match outcome with
  | .error _ => st
  | .ok result =>
    if isDriver then
      let message := driverMessage result now
      { detectedDriverLang := result.originalLanguage,
        conversation := st.conversation ++ [message],
        playback := playAudio decodeOk message.id st.playback }
    else
      let message := counterMessage result now
      { detectedDriverLang := st.detectedDriverLang,
        conversation := st.conversation ++ [message],
        playback := playAudio decodeOk message.id st.playback }

/-- `clearConversation` (`page.tsx` lines 218-224): behind a confirm dialog,
stop playback, empty the log, and reset the detected language cell to the
empty string. -/
def clearConversation (confirmed : Bool) (st : ClientState) : ClientState :=
  if confirmed then
    { detectedDriverLang := some "",
      conversation := [],
      playback := stopCurrentAudio st.playback }
  else st

/-! ## Claim C1: successful pipeline run -/

/-- Claim C1: when the recognizer yields text `t` in language `l`, the
translator yields non-empty content `u`, and the synthesizer yields bytes
`X`, then `translateAudio` invokes the three collaborators strictly in the
order recognize, translate, synthesize, and returns exactly
`{originalText := t, originalLanguage := l, translatedText := u,
targetLanguage := targetLang, audio := X}`. -/
theorem c1_pipeline_success (o : Oracles) (clip : AudioClip) (t l u : String) (X : List Nat)
    (targetLang : String)
    (h1 : o.transcribe clip = .ok { text := t, language := l })
    (h2 : o.chat (systemPrompt l targetLang) t = .ok (some u))
    (hu : u ≠ "")
    (h3 : o.speech u (voiceFor targetLang) = .ok X) :
    translateAudio o clip targetLang =
      (.ok { originalText := t, originalLanguage := l, translatedText := u,
             targetLanguage := targetLang, audio := X },
       [.recognizeCall clip, .chatCall (systemPrompt l targetLang) t,
        .speechCall u (voiceFor targetLang)]) := by
  simp [translateAudio, transcribeAudio, translateText, textToSpeech, h1, h2, h3, jsOr, hu]

/-- Concrete clip used by the C1 witness. -/
def clipC1 : AudioClip := { bytes := [1, 2, 3], mimeType := "audio/webm", name := "recording.webm" }

/-- Concrete collaborators for the C1 witness: recognize "hallo"/nl,
translate to "hello", synthesize bytes [7, 8, 9]. -/
def oraclesC1 : Oracles :=
  { transcribe := fun _ => .ok { text := "hallo", language := "nl" },
    chat := fun _ _ => .ok (some "hello"),
    speech := fun _ _ => .ok [7, 8, 9] }

/-- Witness for C1 at the scenario of the spec: t = "hallo", l = "nl",
target = "en", u = "hello". -/
theorem c1_pipeline_success_witness :
    translateAudio oraclesC1 clipC1 "en" =
      (.ok { originalText := "hallo", originalLanguage := "nl", translatedText := "hello",
             targetLanguage := "en", audio := [7, 8, 9] },
       [.recognizeCall clipC1, .chatCall (systemPrompt "nl" "en") "hallo",
        .speechCall "hello" (voiceFor "en")]) :=
  c1_pipeline_success oraclesC1 clipC1 "hallo" "nl" "hello" [7, 8, 9] "en" rfl rfl
    (by decide) rfl

/-! ## Claim C2: translate-stage soft degrade -/

/-- Claim C2: when recognition succeeds with text `t` but the chat
collaborator returns empty or absent content, the pipeline does not fail:
the result's `translatedText` is `t` verbatim, the route answers 200, and
the client `onstop` handler still appends exactly one Turn (whose
`translatedText` field carries `t`). -/
theorem c2_soft_degrade (o : Oracles) (clip : AudioClip) (t l : String) (X : List Nat)
    (targetLang : String) (st : ClientState) (isDriver decodeOk : Bool) (now : Nat)
    (htl : targetLang ≠ "")
    (h1 : o.transcribe (processFile clip) = .ok { text := t, language := l })
    (h2 : o.chat (systemPrompt l targetLang) t = .ok (some "") ∨
          o.chat (systemPrompt l targetLang) t = .ok none)
    (h3 : o.speech t (voiceFor targetLang) = .ok X) :
    (translateAudio o (processFile clip) targetLang).1 =
      .ok { originalText := t, originalLanguage := l, translatedText := t,
            targetLanguage := targetLang, audio := X } ∧
    (POST o (some clip) (some targetLang)).status = 200 ∧
    (POST o (some clip) (some targetLang)).body.translatedText = some t ∧
    (onstopHandler isDriver (.ok (POST o (some clip) (some targetLang)).body) now decodeOk
        st).conversation =
      st.conversation ++
        [if isDriver then driverMessage (POST o (some clip) (some targetLang)).body now
         else counterMessage (POST o (some clip) (some targetLang)).body now] ∧
    (if isDriver then driverMessage (POST o (some clip) (some targetLang)).body now
     else counterMessage (POST o (some clip) (some targetLang)).body now).translatedText =
      some t := by
  have htrans : translateText o t l targetLang = .ok t := by
    rcases h2 with h2 | h2 <;> simp [translateText, h2, jsOr]
  have hpipe : translateAudio o (processFile clip) targetLang =
      (.ok { originalText := t, originalLanguage := l, translatedText := t,
             targetLanguage := targetLang, audio := X },
       [.recognizeCall (processFile clip), .chatCall (systemPrompt l targetLang) t,
        .speechCall t (voiceFor targetLang)]) := by
    simp [translateAudio, transcribeAudio, textToSpeech, h1, htrans, h3]
  have hpost : POST o (some clip) (some targetLang) =
      { status := 200,
        body := { originalText := some t, originalLanguage := some l,
                  translatedText := some t, targetLanguage := some targetLang,
                  audioBase64 := some (base64Encode X) } } := by
    simp [POST, jsOr, htl, hpipe]
  refine ⟨by simp [hpipe], by simp [hpost], by simp [hpost], ?_, ?_⟩ <;>
    cases isDriver <;> simp [onstopHandler, driverMessage, counterMessage, hpost]

/-- Concrete clip used by the C2 witness. -/
def clipC2 : AudioClip := { bytes := [4, 5], mimeType := "audio/webm", name := "recording.webm" }

/-- Concrete collaborators for the C2 witness: the chat collaborator
returns the empty string. -/
def oraclesC2 : Oracles :=
  { transcribe := fun _ => .ok { text := "hallo", language := "nl" },
    chat := fun _ _ => .ok (some ""),
    speech := fun _ _ => .ok [9] }

/-- Witness for C2: empty translator content at a concrete counter-role run. -/
theorem c2_soft_degrade_witness :
    (translateAudio oraclesC2 (processFile clipC2) "en").1 =
      .ok { originalText := "hallo", originalLanguage := "nl", translatedText := "hallo",
            targetLanguage := "en", audio := [9] } ∧
    (POST oraclesC2 (some clipC2) (some "en")).status = 200 ∧
    (POST oraclesC2 (some clipC2) (some "en")).body.translatedText = some "hallo" ∧
    (onstopHandler false (.ok (POST oraclesC2 (some clipC2) (some "en")).body) 1700000000000 true
        initClient).conversation =
      initClient.conversation ++
        [if false then driverMessage (POST oraclesC2 (some clipC2) (some "en")).body 1700000000000
         else counterMessage (POST oraclesC2 (some clipC2) (some "en")).body 1700000000000] ∧
    (if false then driverMessage (POST oraclesC2 (some clipC2) (some "en")).body 1700000000000
     else counterMessage (POST oraclesC2 (some clipC2) (some "en")).body
        1700000000000).translatedText = some "hallo" :=
  c2_soft_degrade oraclesC2 clipC2 "hallo" "nl" [9] "en" initClient false true 1700000000000
    (by decide) rfl (Or.inl rfl) rfl

/-! ## Claim C3: exactly one Turn on success, zero on failure -/

/-- Concrete clip for the C3 evaluation. -/
def clipC3 : AudioClip := { bytes := [1], mimeType := "audio/webm", name := "recording.webm" }

/-- Collaborators whose synthesis stage fails, driving the route to its 500
error response. -/
def oraclesC3 : Oracles :=
  { transcribe := fun _ => .ok { text := "hallo", language := "nl" },
    chat := fun _ _ => .ok (some "hello"),
    speech := fun _ _ => .error "boom" }

/-- Claim C3 evaluated at the failing input: the route reports the synthesis
failure with status 500 and an error-only body, yet the client `onstop`
handler — which never checks `response.ok` — still appends one Turn, with
every pipeline-derived field `undefined` (a partial Turn).  A thrown fetch,
by contrast, leaves the log unchanged.  This contradicts the claim that a
failed call appends zero Turns and that no partial Turn is ever stored. -/
theorem c3_partial_turn_on_http_error :
    (POST oraclesC3 (some clipC3) (some "en")).status = 500 ∧
    (onstopHandler true (.ok (POST oraclesC3 (some clipC3) (some "en")).body) 1700000000000
        false initClient).conversation =
      [{ id := "1700000000000", role := .driver, originalText := none, originalLang := none,
         translatedText := none, audioBase64 := none }] ∧
    onstopHandler true (.error ()) 1700000000000 false initClient = initClient := by
  refine ⟨rfl, ?_, rfl⟩
  simp only [onstopHandler, driverMessage, POST, translateAudio, transcribeAudio, translateText,
    textToSpeech, oraclesC3, initClient]
  rfl

/-! ## Claim C4: recognition failure policy -/

/-- Concrete clip for the C4 counterexample. -/
def clipC4 : AudioClip := { bytes := [2], mimeType := "audio/webm", name := "recording.webm" }

/-- Collaborators whose recognizer succeeds with EMPTY text. -/
def oraclesC4 : Oracles :=
  { transcribe := fun _ => .ok { text := "", language := "en" },
    chat := fun _ _ => .ok (some "ok"),
    speech := fun _ _ => .ok [1] }

/-- Counterexample to claim C4: when the recognizer returns empty text the
pipeline does NOT fail — both later stages still run and the call succeeds,
contrary to the claim that empty recognized output fails the pipeline with
`RecognitionFailed` before any later stage. -/
theorem c4_empty_text_not_rejected :
    translateAudio oraclesC4 clipC4 "nl" =
      (.ok { originalText := "", originalLanguage := "en", translatedText := "ok",
             targetLanguage := "nl", audio := [1] },
       [.recognizeCall clipC4, .chatCall (systemPrompt "en" "nl") "",
        .speechCall "ok" (voiceFor "nl")]) := rfl

/-- Claim C4 as amended: only a recognizer ERROR fails the pipeline — the
error propagates unchanged (there is no local fallback) and neither the
translate nor the synthesize collaborator is invoked; empty recognized text
is not checked and flows on through the remaining stages. -/
theorem c4_recognizer_error_aborts (o : Oracles) (clip : AudioClip) (targetLang e : String)
    (h : o.transcribe clip = .error e) :
    translateAudio o clip targetLang = (.error e, [.recognizeCall clip]) := by
  simp [translateAudio, transcribeAudio, h]

/-- Concrete collaborators whose recognizer rejects. -/
def oraclesC4err : Oracles :=
  { transcribe := fun _ => .error "whisper down",
    chat := fun _ _ => .ok (some "x"),
    speech := fun _ _ => .ok [1] }

/-- Witness for the amended C4 at a concrete erroring recognizer. -/
theorem c4_recognizer_error_aborts_witness :
    translateAudio oraclesC4err clipC4 "nl" = (.error "whisper down", [.recognizeCall clipC4]) :=
  c4_recognizer_error_aborts oraclesC4err clipC4 "nl" "whisper down" rfl

/-! ## Claim C5: clear resets log and router -/

/-- Claim C5: from any client state, a confirmed `clearConversation` leaves
an empty conversation log and resets the detected-language cell to its
initial empty value, so the next target-language query for either role
yields the default `"nl"`. -/
theorem c5_clear_resets (st : ClientState) :
    (clearConversation true st).conversation = [] ∧
    (clearConversation true st).detectedDriverLang = initClient.detectedDriverLang ∧
    targetLangFor false (clearConversation true st).detectedDriverLang = "nl" ∧
    targetLangFor true (clearConversation true st).detectedDriverLang = "nl" := by
  simp [clearConversation, targetLangFor, jsOr, initClient]

/-! ## Claim C10: counter turns carry the constant original language -/

/-- Claim C10: a counter-role completion always appends a Turn whose
`originalLang` is the hard-coded `"nl"`, regardless of the response's
detected language, while a driver-role completion copies the detected
language from the response. -/
theorem c10_counter_original_lang_constant (st : ClientState) (r : ApiResult) (now : Nat)
    (dk : Bool) :
    (onstopHandler false (.ok r) now dk st).conversation =
      st.conversation ++ [counterMessage r now] ∧
    (counterMessage r now).originalLang = some "nl" ∧
    (onstopHandler true (.ok r) now dk st).conversation =
      st.conversation ++ [driverMessage r now] ∧
    (driverMessage r now).originalLang = r.originalLanguage := by
  simp [onstopHandler, counterMessage, driverMessage]

/-! ## Claim C6: session language router -/

/-- Concrete clip for the C6 evaluation. -/
def clipC6 : AudioClip := { bytes := [3], mimeType := "audio/webm", name := "recording.webm" }

/-- Collaborators whose recognizer rejects, so every pipeline call fails. -/
def oraclesC6 : Oracles :=
  { transcribe := fun _ => .error "no speech",
    chat := fun _ _ => .ok (some "x"),
    speech := fun _ _ => .ok [1] }

/-- A client state in which a driver run has already recorded `"pl"`. -/
def stateC6 : ClientState :=
  { detectedDriverLang := some "pl", conversation := [], playback := initPlayback }

/-- Claim C6 evaluated at the failing input: the fixed-target and fallback
parts of the router hold (driver target is always `"nl"`, counter target is
the recorded `"pl"`, the initial cell falls back to `"nl"`), but an
UNSUCCESSFUL role-A pipeline run (HTTP 500 body) still executes
`setDetectedDriverLang(result.originalLanguage)` and overwrites the recorded
`"pl"` with `undefined`, dropping the counter target back to `"nl"` — the
code updates the cell on failed role-A runs, contrary to the claim that only
successful ones do. -/
theorem c6_failed_run_updates_router :
    targetLangFor true stateC6.detectedDriverLang = "nl" ∧
    targetLangFor false stateC6.detectedDriverLang = "pl" ∧
    targetLangFor false initClient.detectedDriverLang = "nl" ∧
    (POST oraclesC6 (some clipC6) (some "pl")).status = 500 ∧
    (onstopHandler true (.ok (POST oraclesC6 (some clipC6) (some "pl")).body) 1700000000001 true
        stateC6).detectedDriverLang = none ∧
    targetLangFor false
      (onstopHandler true (.ok (POST oraclesC6 (some clipC6) (some "pl")).body) 1700000000001 true
        stateC6).detectedDriverLang = "nl" := by
  exact ⟨rfl, rfl, rfl, rfl, rfl, rfl⟩

/-! ## Claim C7: at most one concurrent playback -/

/-- Invariant of the playback controller: the audibly playing sources are
exactly the one referenced by `currentAudioSource` (if any). -/
def playbackInv (p : PlaybackState) : Prop :=
  p.active = p.currentSource.toList

theorem stopCurrentAudio_active_nil (p : PlaybackState) (h : playbackInv p) :
    (stopCurrentAudio p).active = [] := by
  unfold playbackInv at h
  cases hc : p.currentSource with
  | none =>
    rw [hc] at h
    simp [stopCurrentAudio, hc, h]
  | some s =>
    rw [hc] at h
    simp [stopCurrentAudio, hc, h, List.erase_cons_head]

theorem stopCurrentAudio_inv (p : PlaybackState) (h : playbackInv p) :
    playbackInv (stopCurrentAudio p) := by
  unfold playbackInv
  rw [stopCurrentAudio_active_nil p h]
  simp [stopCurrentAudio]

theorem stopCurrentAudio_currentSource (p : PlaybackState) :
    (stopCurrentAudio p).currentSource = none := rfl

theorem stopCurrentAudio_nextSourceId (p : PlaybackState) :
    (stopCurrentAudio p).nextSourceId = p.nextSourceId := rfl

theorem playAudio_active (p : PlaybackState) (mid : String) (ok : Bool) (h : playbackInv p) :
    (playAudio ok mid p).active = if ok then [p.nextSourceId] else [] := by
  have hs := stopCurrentAudio_active_nil p h
  cases ok <;> simp [playAudio, hs, stopCurrentAudio_nextSourceId]

theorem playAudio_inv (p : PlaybackState) (mid : String) (ok : Bool) (h : playbackInv p) :
    playbackInv (playAudio ok mid p) := by
  unfold playbackInv
  rw [playAudio_active p mid ok h]
  cases ok <;>
    simp [playAudio, stopCurrentAudio_currentSource, stopCurrentAudio_nextSourceId]

theorem handleToggleAudio_inv (p : PlaybackState) (mid : String) (ok : Bool)
    (h : playbackInv p) : playbackInv (handleToggleAudio ok mid p) := by
  unfold handleToggleAudio
  split
  · exact stopCurrentAudio_inv p h
  · exact playAudio_inv p mid ok h

theorem sourceEnded_inv (p : PlaybackState) (s : Nat) (h : playbackInv p) :
    playbackInv (sourceEnded s p) := by
  unfold playbackInv at h ⊢
  unfold sourceEnded
  split
  · rename_i hc
    cases hcur : p.currentSource with
    | none =>
      rw [hcur] at h
      rw [h] at hc
      simp at hc
    | some c =>
      rw [hcur] at h
      rw [h] at hc ⊢
      simp at hc
      simp [hc, List.erase_cons_head]
  · exact h

theorem playStep_inv (p : PlaybackState) (op : PlayOp) (h : playbackInv p) :
    playbackInv (playStep p op) := by
  cases op with
  | toggle mid ok => exact handleToggleAudio_inv p mid ok h
  | stopAll => exact stopCurrentAudio_inv p h
  | complete s => exact sourceEnded_inv p s h

theorem runPlay_inv (ops : List PlayOp) :
    ∀ p : PlaybackState, playbackInv p → playbackInv (runPlay ops p) := by
  induction ops with
  | nil => intro p h; simpa [runPlay] using h
  | cons op ops ih =>
    intro p h
    have : runPlay (op :: ops) p = runPlay ops (playStep p op) := by
      simp [runPlay]
    rw [this]
    exact ih (playStep p op) (playStep_inv p op h)

/-- Claim C7: for every finite sequence of playback operations (toggles,
teardown stops, natural completions) starting from the idle state, the
audibly playing sources coincide with the single optional
`currentAudioSource` — hence at most one playback is ever active — and
starting playback of a new turn leaves exactly the fresh source active (the
previous one is stopped first by `stopCurrentAudio`). -/
theorem c7_at_most_one_playing (ops : List PlayOp) :
    (runPlay ops initPlayback).active = (runPlay ops initPlayback).currentSource.toList ∧
    (runPlay ops initPlayback).active.length ≤ 1 ∧
    ∀ (mid : String) (ok : Bool),
      (playAudio ok mid (runPlay ops initPlayback)).active =
        if ok then [(runPlay ops initPlayback).nextSourceId] else [] := by
  have hinv : playbackInv (runPlay ops initPlayback) :=
    runPlay_inv ops initPlayback (by simp [playbackInv, initPlayback])
  have heq : (runPlay ops initPlayback).active =
      (runPlay ops initPlayback).currentSource.toList := hinv
  refine ⟨heq, ?_, fun mid ok => playAudio_active _ mid ok hinv⟩
  rw [heq]
  cases (runPlay ops initPlayback).currentSource <;> simp

/-! ## Claim C8: toggling the same turn twice returns to idle -/

/-- Claim C8: from the idle playback state, toggling a turn (with the decode
succeeding, so playback starts) and then toggling the same turn again — with
no intervening state change — stops it and leaves the controller idle: no
current source, no playing id, nothing audible. -/
theorem c8_toggle_twice_idle (messageId : String) (secondDecode : Bool) :
    (handleToggleAudio secondDecode messageId
        (handleToggleAudio true messageId initPlayback)).currentSource = none ∧
    (handleToggleAudio secondDecode messageId
        (handleToggleAudio true messageId initPlayback)).playingMessageId = none ∧
    (handleToggleAudio secondDecode messageId
        (handleToggleAudio true messageId initPlayback)).active = [] := by
  have h1 : handleToggleAudio true messageId initPlayback =
      { currentSource := some 0, playingMessageId := some messageId,
        active := [0], nextSourceId := 1 } := by
    simp [handleToggleAudio, initPlayback, playAudio, stopCurrentAudio]
  rw [h1]
  simp [handleToggleAudio, stopCurrentAudio, List.erase_cons_head]

/-! ## Claim C9: Turn identity tokens

The Turn id is `Date.now().toString()`, so it is determined entirely by the
creation timestamp in milliseconds.  The helpers below prove that the
decimal rendering used by `toString` is injective and denotes the timestamp,
by exhibiting its left inverse `decimalVal`. -/

/-- Numeric value of a decimal digit character (non-digits read as 0). -/
def digitVal (c : Char) : Nat :=
  if c = '1' then 1 else if c = '2' then 2 else if c = '3' then 3 else if c = '4' then 4
  else if c = '5' then 5 else if c = '6' then 6 else if c = '7' then 7 else if c = '8' then 8
  else if c = '9' then 9 else 0

/-- The number denoted by a list of decimal digit characters. -/
def decimalVal (l : List Char) : Nat :=
  l.foldl (fun a c => a * 10 + digitVal c) 0

theorem digitVal_digitChar (d : Nat) (h : d < 10) : digitVal (Nat.digitChar d) = d := by
  interval_cases d <;> rfl

theorem decimalVal_append (xs : List Char) (c : Char) :
    decimalVal (xs ++ [c]) = decimalVal xs * 10 + digitVal c := by
  simp [decimalVal, List.foldl_append]

theorem toDigitsCore_append (b : Nat) (fuel : Nat) :
    ∀ (n : Nat) (ds : List Char),
      Nat.toDigitsCore b fuel n ds = Nat.toDigitsCore b fuel n [] ++ ds := by
  induction fuel with
  | zero => intro n ds; simp [Nat.toDigitsCore]
  | succ f ih =>
    intro n ds
    simp only [Nat.toDigitsCore]
    by_cases h : n / b = 0
    · simp [h]
    · simp only [h, if_false]
      rw [ih (n / b) ((n % b).digitChar :: ds), ih (n / b) [(n % b).digitChar]]
      simp

theorem decimalVal_toDigitsCore (fuel : Nat) :
    ∀ n : Nat, n < fuel → decimalVal (Nat.toDigitsCore 10 fuel n []) = n := by
  induction fuel with
  | zero => intro n h; omega
  | succ f ih =>
    intro n h
    simp only [Nat.toDigitsCore]
    by_cases h0 : n / 10 = 0
    · have hn : n < 10 := by omega
      simp [h0, decimalVal, Nat.mod_eq_of_lt hn, digitVal_digitChar n hn]
    · simp only [h0, if_false]
      rw [toDigitsCore_append, decimalVal_append,
        ih (n / 10) (by omega), digitVal_digitChar (n % 10) (by omega)]
      omega

theorem decimalVal_repr (n : Nat) : decimalVal (Nat.repr n).data = n :=
  decimalVal_toDigitsCore (n + 1) n (by omega)

theorem repr_injective (m n : Nat) (h : Nat.repr m = Nat.repr n) : m = n := by
  have h2 := congrArg (fun s => decimalVal s.data) h
  simpa [decimalVal_repr] using h2

/-- A first parsed response body for the C9 runs. -/
def resultC9a : ApiResult :=
  { originalText := some "eerste", originalLanguage := some "nl",
    translatedText := some "first", targetLanguage := some "en", audioBase64 := some "AA==" }

/-- A second, different parsed response body for the C9 runs. -/
def resultC9b : ApiResult :=
  { originalText := some "tweede", originalLanguage := some "nl",
    translatedText := some "second", targetLanguage := some "en", audioBase64 := some "BB==" }

/-- Counterexample to claim C9: two successful counter runs completing in
the same millisecond (`Date.now()` both 1700000000000) append two distinct
Turns — their original texts differ — that carry the SAME identity token, so
Turn ids are neither unique nor strictly creation-ordered. -/
theorem c9_same_millisecond_shared_id :
    ((onstopHandler false (.ok resultC9b) 1700000000000 false
        (onstopHandler false (.ok resultC9a) 1700000000000 false initClient)).conversation.map
      (fun m => m.id)) = ["1700000000000", "1700000000000"] ∧
    ((onstopHandler false (.ok resultC9b) 1700000000000 false
        (onstopHandler false (.ok resultC9a) 1700000000000 false initClient)).conversation.map
      (fun m => m.originalText)) = [some "eerste", some "tweede"] :=
  ⟨rfl, rfl⟩

/-- Claim C9 as amended: a Turn's identity token is exactly the creation
timestamp in milliseconds rendered in decimal (for either role), and it
denotes that timestamp; consequently Turns created at distinct milliseconds
receive distinct, creation-ordered ids, but Turns created within the same
millisecond share one id. -/
theorem c9_ids_from_timestamps (r1 r2 : ApiResult) (t1 t2 : Nat) (h : t1 ≠ t2) :
    (driverMessage r1 t1).id = Nat.repr t1 ∧
    (counterMessage r1 t1).id = Nat.repr t1 ∧
    decimalVal ((driverMessage r1 t1).id).data = t1 ∧
    (counterMessage r1 t1).id = (driverMessage r2 t1).id ∧
    (driverMessage r1 t1).id ≠ (driverMessage r2 t2).id ∧
    (counterMessage r1 t1).id ≠ (counterMessage r2 t2).id := by
  refine ⟨rfl, rfl, decimalVal_repr t1, rfl, ?_, ?_⟩ <;>
    exact fun hc => h (repr_injective t1 t2 hc)

/-- Witness for the amended C9 at concrete distinct timestamps. -/
theorem c9_ids_from_timestamps_witness :
    (driverMessage resultC9a 1700000000000).id = Nat.repr 1700000000000 ∧
    (counterMessage resultC9a 1700000000000).id = Nat.repr 1700000000000 ∧
    decimalVal ((driverMessage resultC9a 1700000000000).id).data = 1700000000000 ∧
    (counterMessage resultC9a 1700000000000).id = (driverMessage resultC9b 1700000000000).id ∧
    (driverMessage resultC9a 1700000000000).id ≠ (driverMessage resultC9b 1700000000001).id ∧
    (counterMessage resultC9a 1700000000000).id ≠ (counterMessage resultC9b 1700000000001).id :=
  c9_ids_from_timestamps resultC9a resultC9b 1700000000000 1700000000001 (by omega)

end GateTalk
